import Mathlib

/-!
Shallow embedding of `calculator_mcp_server.py` (Calculator MCP Server).

Python floats are modelled as exact rationals (`ℚ`); Python dicts holding a
calculation request are modelled as association lists from string keys to a
dynamic value type `PyVal`.  A handler that returns either a result dict or an
error dict `\x7b"error": msg\x7d` is modelled as `Except String payload`:
`Except.error msg` is the returned error dict, `Except.ok p` the success dict.
A raised Python exception is a separate, outer `Except` layer where it can
occur (the `try` block of `batch_calculate`).
-/

namespace CalcMCP

/-- A dynamic value stored in a calculation-request dict.  `nil` models
Python `None`.  List values are modelled as lists of numbers, the only list
shape the server consumes. -/
inductive PyVal where
  | str (s : String)
  | num (q : ℚ)
  | bool (b : Bool)
  | numList (l : List ℚ)
  | nil
deriving DecidableEq

/-- Python truthiness of a value, as used by `if not as_percentage` etc. -/
def pyTruthy : PyVal → Bool
  | .str s => !(s == "")
  | .num q => decide (q ≠ 0)
  | .bool b => b
  | .numList l => !l.isEmpty
  | .nil => false

/-- Rendering of a dynamic value inside an f-string, `str(v)` in Python. -/
def pyShow : PyVal → String
  | .str s => s
  | .num q => toString q.num ++ (if q.den = 1 then ".0" else "/" ++ toString q.den)
  | .bool b => if b then "True" else "False"
  | .numList _ => "[...]"
  | .nil => "None"

/-- Rendering of `calc.get("type")` inside the unknown-type f-string:
`None` when the key is absent. -/
def pyShowOpt : Option PyVal → String
  | Option.none => "None"
  | Option.some v => pyShow v

/-- Python `round(q * 10 ^ n) / 10 ^ n` tie behaviour: round half to even.
`round` in Python operates on IEEE doubles; the model rounds the exact
rational value. -/
def roundHalfEven (q : ℚ) : ℤ :=
  let f := ⌊q⌋
  let r := q - (f : ℚ)
  if r < 1/2 then f
  else if 1/2 < r then f + 1
  else if f % 2 = 0 then f else f + 1

/-- Python `round(q, ndigits)` on the exact rational value. -/
def pyRound (q : ℚ) (ndigits : ℕ) : ℚ :=
  (roundHalfEven (q * (10 : ℚ) ^ ndigits) : ℚ) / (10 : ℚ) ^ ndigits

/-- Modelled rendering of a Python float in an f-string (`str(x)`):
integer-valued floats print as `n.0`, as in Python; other values are shown as
numerator and denominator (Python prints a decimal expansion; no claim
depends on that detail). -/
def pyFloatStr (q : ℚ) : String :=
  if q.den = 1 then toString q.num ++ ".0"
  else toString q.num ++ "/" ++ toString q.den

/-- Python `f"\x7bq:.2f\x7d"`: fixed-point rendering with exactly two decimal
places, rounding half to even. -/
def format2 (q : ℚ) : String :=
  let s := roundHalfEven (q * 100)
  let sign := if s < 0 then "-" else ""
  let n := s.natAbs
  sign ++ toString (n / 100) ++ "." ++ (if n % 100 < 10 then "0" else "") ++ toString (n % 100)

/-- Success dict of `calculate` (keys `operation, a, b, result, formatted`;
note there is no `error` key). -/
structure ArithPayload where
  operation : String
  a : ℚ
  b : ℚ
  result : ℚ
  formatted : String
deriving DecidableEq

/-- The `symbols` dict of `get_operator_symbol`.  The multiply and divide
entries are the literal (mojibake) characters present in the source file:
U+0E23 U+0097 and U+0E23 U+0E17. -/
def symbols : List (String × String) :=
  [("add", "+"), ("subtract", "-"), ("multiply", "ร\u0097"), ("divide", "รท")]

/-- `get_operator_symbol`: `symbols.get(operation, operation)`. -/
def get_operator_symbol (operation : String) : String :=
  (symbols.lookup operation).getD operation

/-- Python `operation.lower()` (ASCII case mapping, which covers every
operation name the server compares against). -/
def pyLower (s : String) : String :=
  ⟨s.data.map Char.toLower⟩

/-- `calculate(operation, a, b)`.  The first line rebinds `operation` to its
lowercased form, so every later use of `operation` (including the unsupported
message and the success payload) sees the lowercased string. -/
def calculate (operation : String) (a b : ℚ) : Except String ArithPayload :=
  let operation := pyLower operation
  if operation = "add" then
    let result := a + b
    Except.ok ⟨operation, a, b, result,
      pyFloatStr a ++ " " ++ get_operator_symbol operation ++ " " ++ pyFloatStr b ++ " = " ++ pyFloatStr result⟩
  else if operation = "subtract" then
    let result := a - b
    Except.ok ⟨operation, a, b, result,
      pyFloatStr a ++ " " ++ get_operator_symbol operation ++ " " ++ pyFloatStr b ++ " = " ++ pyFloatStr result⟩
  else if operation = "multiply" then
    let result := a * b
    Except.ok ⟨operation, a, b, result,
      pyFloatStr a ++ " " ++ get_operator_symbol operation ++ " " ++ pyFloatStr b ++ " = " ++ pyFloatStr result⟩
  else if operation = "divide" then
    if b = 0 then Except.error "Division by zero is not allowed"
    else
      let result := a / b
      Except.ok ⟨operation, a, b, result,
        pyFloatStr a ++ " " ++ get_operator_symbol operation ++ " " ++ pyFloatStr b ++ " = " ++ pyFloatStr result⟩
  else Except.error ("Unsupported operation: " ++ operation)

/-- Success dict of `calculate_yoy`. -/
structure YoyPayload where
  current_value : ℚ
  previous_year_value : ℚ
  absolute_change : ℚ
  yoy_growth : ℚ
  formatted : String
  direction : String
deriving DecidableEq

/-- `calculate_yoy(current_value, previous_year_value, as_percentage=True)`.
`yoy_growth` is rebound to the divided-by-100 value when `as_percentage` is
false; the dict rounds it to 2 digits only in the percentage branch, while the
`formatted` f-string always renders the (possibly unrounded) value with two
decimal places. -/
def calculate_yoy (current_value previous_year_value : ℚ) (as_percentage : Bool := true) :
    Except String YoyPayload :=
  if previous_year_value = 0 then Except.error "Previous year value cannot be zero"
  else
    let yoy_change := current_value - previous_year_value
    let yoy_growth := (yoy_change / |previous_year_value|) * 100
    let yoy_growth := if !as_percentage then yoy_growth / 100 else yoy_growth
    Except.ok
      { current_value := current_value
        previous_year_value := previous_year_value
        absolute_change := yoy_change
        yoy_growth := if as_percentage then pyRound yoy_growth 2 else yoy_growth
        formatted := "YoY: " ++ format2 yoy_growth ++ (if as_percentage then "%" else "")
        direction := if yoy_change > 0 then "increase"
          else if yoy_change < 0 then "decrease" else "no change" }

/-- Success dict of `calculate_mom`. -/
structure MomPayload where
  current_value : ℚ
  previous_month_value : ℚ
  absolute_change : ℚ
  mom_growth : ℚ
  formatted : String
  direction : String
deriving DecidableEq

/-- `calculate_mom(current_value, previous_month_value, as_percentage=True)`,
structurally identical to `calculate_yoy` with the month field names. -/
def calculate_mom (current_value previous_month_value : ℚ) (as_percentage : Bool := true) :
    Except String MomPayload :=
  if previous_month_value = 0 then Except.error "Previous month value cannot be zero"
  else
    let mom_change := current_value - previous_month_value
    let mom_growth := (mom_change / |previous_month_value|) * 100
    let mom_growth := if !as_percentage then mom_growth / 100 else mom_growth
    Except.ok
      { current_value := current_value
        previous_month_value := previous_month_value
        absolute_change := mom_change
        mom_growth := if as_percentage then pyRound mom_growth 2 else mom_growth
        formatted := "MoM: " ++ format2 mom_growth ++ (if as_percentage then "%" else "")
        direction := if mom_change > 0 then "increase"
          else if mom_change < 0 then "decrease" else "no change" }

/-- Success dict of `calculate_percentage`. -/
structure PctPayload where
  part : ℚ
  whole : ℚ
  percentage : ℚ
  formatted : String
  ratio : ℚ
deriving DecidableEq

/-- `calculate_percentage(part, whole, as_percentage=True)`. -/
def calculate_percentage (part whole : ℚ) (as_percentage : Bool := true) :
    Except String PctPayload :=
  if whole = 0 then Except.error "Whole value cannot be zero"
  else
    let percentage := (part / |whole|) * 100
    let percentage := if !as_percentage then percentage / 100 else percentage
    Except.ok
      { part := part
        whole := whole
        percentage := if as_percentage then pyRound percentage 2 else percentage
        formatted := format2 percentage ++ (if as_percentage then "%" else "")
        ratio := part / whole }

/-- Success dict of `calculate_proportion`. -/
structure PropPayload where
  values : List ℚ
  total : ℚ
  proportions : List ℚ
  percentages : List ℚ
  formatted : List String
deriving DecidableEq

/-- The list comprehension `[value / total for value in values]` with
`total = sum(values)`. -/
def proportionsOf (values : List ℚ) : List ℚ :=
  values.map (fun value => value / values.sum)

/-- The second pass `[prop / sum(proportions) for prop in proportions]`
performed when `normalize` is true. -/
def normalizePass (proportions : List ℚ) : List ℚ :=
  proportions.map (fun prop => prop / proportions.sum)

/-- `calculate_proportion(values, normalize=False)`. -/
def calculate_proportion (values : List ℚ) (normalize : Bool := false) :
    Except String PropPayload :=
  if values = [] then Except.error "Values list cannot be empty"
  else
    let total := values.sum
    if total = 0 then Except.error "Sum of values cannot be zero"
    else
      let proportions := proportionsOf values
      let proportions := if normalize then normalizePass proportions else proportions
      let percentages := proportions.map (fun prop => prop * 100)
      Except.ok
        { values := values
          total := total
          proportions := proportions.map (fun p => pyRound p 4)
          percentages := percentages.map (fun p => pyRound p 2)
          formatted := ((values.zip percentages).enum).map
            (fun ip => "Value " ++ toString (ip.1 + 1) ++ ": " ++ pyFloatStr ip.2.1
              ++ " (" ++ format2 ip.2.2 ++ "%)") }

/-- A calculation-request dict of `batch_calculate`, as an association list
(first binding wins, matching Python dict lookup on unique keys). -/
abbrev CalcDict := List (String × PyVal)

/-- `calc.get(k)`: `None` (absence) when the key is missing, never raises. -/
def dictGet (c : CalcDict) (k : String) : Option PyVal :=
  c.lookup k

/-- `calc[k]`: raises `KeyError(k)` when the key is missing.  `str(e)` of a
`KeyError` is the repr of the key, i.e. the key in single quotes. -/
def getItem (c : CalcDict) (k : String) : Except String PyVal :=
  match dictGet c k with
  | Option.some v => Except.ok v
  | Option.none => Except.error ("\u0027" ++ k ++ "\u0027")

/-- Short type name of a value, used in modelled fault messages. -/
def typeName : PyVal → String
  | .str _ => "str"
  | .num _ => "float"
  | .bool _ => "bool"
  | .numList _ => "list"
  | .nil => "NoneType"

/-- Coercion of an extracted field to a number.  Python raises the
corresponding `TypeError` inside the handler body (e.g. at `a + b`); the
model raises the fault at the call boundary, which the same per-item `try`
of `batch_calculate` catches.  A Python `bool` is an `int` subtype and
participates in arithmetic as 0 or 1. -/
def asNum : PyVal → Except String ℚ
  | .num q => Except.ok q
  | .bool b => Except.ok (if b then 1 else 0)
  | v => Except.error ("unsupported operand type: " ++ typeName v)

/-- Coercion of an extracted field to a string.  Python raises
`AttributeError` at `operation.lower()` for a non-string; the model raises
the fault at the call boundary, caught by the same per-item `try`. -/
def asStr : PyVal → Except String String
  | .str s => Except.ok s
  | v => Except.error ("\u0027" ++ typeName v ++ "\u0027 object has no attribute lower")

/-- Coercion of an extracted field to a list of numbers.  Python raises
`TypeError` at `sum(values)` for a non-list; the model raises the fault at
the call boundary, caught by the same per-item `try`. -/
def asNumList : PyVal → Except String (List ℚ)
  | .numList l => Except.ok l
  | v => Except.error ("\u0027" ++ typeName v ++ "\u0027 object is not iterable")

/-- Result value of one handler call inside the batch: either a returned
error dict (`Except.error msg`, the dict `\x7b"error": msg\x7d`) or a returned
success dict, tagged by which handler produced it. -/
inductive Payload where
  | arith (p : ArithPayload)
  | yoy (p : YoyPayload)
  | mom (p : MomPayload)
  | pct (p : PctPayload)
  | prop (p : PropPayload)
deriving DecidableEq

deriving instance DecidableEq for Except

/-- The dict a handler returns: error dict or success dict. -/
abbrev HandlerResult := Except String Payload

/-- The five `calc_type` strings the `if/elif` chain of `batch_calculate`
recognises. -/
def registeredKinds : List String :=
  ["arithmetic", "yoy", "mom", "percentage", "proportion"]

/-- The body of the per-item `try` block of `batch_calculate`: dispatch on
`calc.get("type")`, extract the required fields with `calc[...]` (which
raises `KeyError` on absence, in the textual argument order), read optional
fields with `calc.get(..., default)` (never raises; used through Python
truthiness), and call the handler.  The outer `Except` is a raised
exception; the inner `HandlerResult` is the dict the handler returns.  The
unknown-type branch raises nothing and returns the error dict rendering
`calc.get("type")` as Python `str` does. -/
def processItemTry (c : CalcDict) : Except String HandlerResult :=
  match dictGet c "type" with
  | Option.some (PyVal.str "arithmetic") => do
      let op ← getItem c "operation"
      let a ← getItem c "a"
      let b ← getItem c "b"
      let opS ← asStr op
      let aq ← asNum a
      let bq ← asNum b
      pure ((calculate opS aq bq).map Payload.arith)
  | Option.some (PyVal.str "yoy") => do
      let cur ← getItem c "current_value"
      let prev ← getItem c "previous_year_value"
      let ap := pyTruthy ((dictGet c "as_percentage").getD (PyVal.bool true))
      let curq ← asNum cur
      let prevq ← asNum prev
      pure ((calculate_yoy curq prevq ap).map Payload.yoy)
  | Option.some (PyVal.str "mom") => do
      let cur ← getItem c "current_value"
      let prev ← getItem c "previous_month_value"
      let ap := pyTruthy ((dictGet c "as_percentage").getD (PyVal.bool true))
      let curq ← asNum cur
      let prevq ← asNum prev
      pure ((calculate_mom curq prevq ap).map Payload.mom)
  | Option.some (PyVal.str "percentage") => do
      let part ← getItem c "part"
      let whole ← getItem c "whole"
      let ap := pyTruthy ((dictGet c "as_percentage").getD (PyVal.bool true))
      let partq ← asNum part
      let wholeq ← asNum whole
      pure ((calculate_percentage partq wholeq ap).map Payload.pct)
  | Option.some (PyVal.str "proportion") => do
      let vs ← getItem c "values"
      let nm := pyTruthy ((dictGet c "normalize").getD (PyVal.bool false))
      let vsl ← asNumList vs
      pure ((calculate_proportion vsl nm).map Payload.prop)
  | t => pure (Except.error ("Unknown calculation type: " ++ pyShowOpt t))

/-- One element of the `results` list of `batch_calculate`: either the dict
`\x7b"calculation": calc, "result": result\x7d` appended at the end of the `try`
block, or the dict `\x7b"calculation": calc, "error": str(e)\x7d` appended by the
`except` clause (note this second dict has no `result` key at all). -/
inductive BatchEntry where
  | result (calculation : CalcDict) (res : HandlerResult)
  | caught (calculation : CalcDict) (msg : String)
deriving DecidableEq

/-- The test `"error" not in r.get("result", \x7b\x7d)` of the `successful`
count.  A `caught` entry has no `result` key, so `r.get("result", \x7b\x7d)`
is the empty dict, which contains no `error` key: the entry is counted as
successful. -/
def countedSuccessful : BatchEntry → Bool
  | .result _ (Except.ok _) => true
  | .result _ (Except.error _) => false
  | .caught _ _ => true

/-- An entry whose `result` key holds a success dict (no `error` key). -/
def isSuccessPayload : BatchEntry → Bool
  | .result _ (Except.ok _) => true
  | _ => false

/-- An entry appended by the `except` clause. -/
def isCaught : BatchEntry → Bool
  | .caught _ _ => true
  | _ => false

/-- The dict `batch_calculate` returns. -/
structure BatchOutcome where
  total_calculations : ℕ
  successful : ℕ
  results : List BatchEntry
deriving DecidableEq

/-- One loop iteration of `batch_calculate`: run the `try` block and append
either the result entry or, when an exception was raised, the `except`
entry carrying `str(e)`. -/
def processEntry (c : CalcDict) : BatchEntry :=
  match processItemTry c with
  | Except.ok r => BatchEntry.result c r
  | Except.error e => BatchEntry.caught c e

/-- `batch_calculate(calculations)`: the loop appends one entry per request
in input order, then the summary dict is assembled. -/
def batch_calculate (calculations : List CalcDict) : BatchOutcome :=
  let results := calculations.map processEntry
  { total_calculations := calculations.length
    successful := (results.filter countedSuccessful).length
    results := results }

/-! Theorems. -/

/-- The `results` list is the input list processed item by item, in order. -/
theorem batch_results_eq (l : List CalcDict) :
    (batch_calculate l).results = l.map processEntry :=
  rfl

/-- Indexed form of `batch_results_eq`. -/
theorem batch_results_getElem (l : List CalcDict) (i : ℕ) :
    (batch_calculate l).results[i]? = (l[i]?).map processEntry := by
  rw [batch_results_eq, List.getElem?_map]

/-- Splitting the `successful` filter over the three entry shapes. -/
theorem count_split (rs : List BatchEntry) :
    (rs.filter countedSuccessful).length =
      (rs.filter isSuccessPayload).length + (rs.filter isCaught).length := by
  induction rs with
  | nil => rfl
  | cons r rs ih =>
    cases r with
    | result c res =>
      cases res with
      | ok p =>
        simp [List.filter_cons, countedSuccessful, isSuccessPayload, isCaught, ih]
        omega
      | error e =>
        simp [List.filter_cons, countedSuccessful, isSuccessPayload, isCaught, ih]
    | caught c m =>
      simp [List.filter_cons, countedSuccessful, isSuccessPayload, isCaught, ih]
      omega

/-- C6: for every batch input list, the outcome of `batch_calculate`
satisfies `results.length = total_calculations = input length` and
`successful ≤ total_calculations`. -/
theorem batch_counts_invariant (l : List CalcDict) :
    (batch_calculate l).results.length = l.length ∧
    (batch_calculate l).total_calculations = l.length ∧
    (batch_calculate l).successful ≤ (batch_calculate l).total_calculations := by
  refine ⟨by simp [batch_calculate], rfl, ?_⟩
  simpa [batch_calculate] using
    List.length_filter_le countedSuccessful (l.map processEntry)

/-- A request dict for an arithmetic item whose required `operation` field is
absent, so `calc["operation"]` raises `KeyError` inside the `try` block. -/
def faultyItem : CalcDict := [("type", PyVal.str "arithmetic")]

/-- C1, counterexample: a batch whose single item ends in a caught unexpected
fault (missing required field) is reported with `successful = 1` although no
item produced a success payload, because the caught-fault entry has no
`result` key and `"error" not in \x7b\x7d` holds. -/
theorem successful_counts_caught_fault_cx :
    (batch_calculate [faultyItem]).successful = 1 ∧
    ((batch_calculate [faultyItem]).results.filter isSuccessPayload).length = 0 :=
  ⟨rfl, rfl⟩

/-- C1, amended: `successful` equals the number of items whose result is a
success payload plus the number of items that ended in a caught unexpected
fault; only handled failure payloads (validation failures and unknown-kind
failures) are excluded from the count. -/
theorem successful_eq_success_add_caught (l : List CalcDict) :
    (batch_calculate l).successful =
      ((batch_calculate l).results.filter isSuccessPayload).length +
      ((batch_calculate l).results.filter isCaught).length := by
  simpa [batch_calculate] using count_split (l.map processEntry)

/-- C2: every unexpected fault raised inside the per-item `try` block (field
extraction or handler invocation) is caught and returned as data in the
outcome at that item's position, never propagated to the caller of
`batch_calculate` (which is a total function of its input). -/
theorem batch_never_raises (l : List CalcDict) (i : ℕ) (c : CalcDict) (m : String)
    (hc : l[i]? = some c) (hf : processItemTry c = Except.error m) :
    (batch_calculate l).results[i]? = some (BatchEntry.caught c m) := by
  rw [batch_results_getElem, hc]
  simp [processEntry, hf]

/-- C2, witness: a concrete faulting item (missing `operation` field). -/
theorem batch_never_raises_witness :
    ([faultyItem][0]? = some faultyItem) ∧
    processItemTry faultyItem = Except.error "\u0027operation\u0027" ∧
    (batch_calculate [faultyItem]).results[0]? =
      some (BatchEntry.caught faultyItem "\u0027operation\u0027") :=
  ⟨rfl, rfl, batch_never_raises [faultyItem] 0 faultyItem "\u0027operation\u0027" rfl rfl⟩

/-- C4, counterexample: the unsupported-operation failure echoes the
lowercased operation string, not the caller's original string:
`calculate("Foo", 1, 2)` reports `foo`, not `Foo`. -/
theorem unsupported_echo_cx :
    calculate "Foo" 1 2 = Except.error "Unsupported operation: foo" ∧
    ("Unsupported operation: foo" : String) ≠ "Unsupported operation: Foo" :=
  ⟨rfl, by decide⟩

/-- C4, amended: for every operation string that is not a case-insensitive
match of add, subtract, multiply or divide, `calculate` returns the failure
payload `Unsupported operation: \x7boperation\x7d` where the echoed operation is
the lowercased form of the caller's string. -/
theorem unsupported_operation_error (op : String) (a b : ℚ)
    (h : pyLower op ∉ (["add", "subtract", "multiply", "divide"] : List String)) :
    calculate op a b = Except.error ("Unsupported operation: " ++ pyLower op) := by
  obtain ⟨h1, h2, h3, h4⟩ : ¬pyLower op = "add" ∧ ¬pyLower op = "subtract" ∧
      ¬pyLower op = "multiply" ∧ ¬pyLower op = "divide" := by
    simpa [not_or] using h
  simp [calculate, h1, h2, h3, h4]

/-- C4, witness for the amended claim at the concrete input `Foo`. -/
theorem unsupported_operation_error_witness :
    (pyLower "Foo" ∉ (["add", "subtract", "multiply", "divide"] : List String)) ∧
    calculate "Foo" 1 2 = Except.error ("Unsupported operation: " ++ pyLower "Foo") :=
  ⟨by decide, unsupported_operation_error "Foo" 1 2 (by decide)⟩

/-- An item whose `type` string is not one of the five recognised kinds falls
through every `elif` to the unknown-type branch without calling a handler and
without raising. -/
theorem processItemTry_unknownKind (c : CalcDict) (s : String)
    (ht : dictGet c "type" = some (PyVal.str s)) (hs : s ∉ registeredKinds) :
    processItemTry c = Except.ok (Except.error ("Unknown calculation type: " ++ s)) := by
  obtain ⟨h1, h2, h3, h4, h5⟩ : ¬s = "arithmetic" ∧ ¬s = "yoy" ∧ ¬s = "mom" ∧
      ¬s = "percentage" ∧ ¬s = "proportion" := by
    simpa [registeredKinds, not_or] using hs
  unfold processItemTry
  rw [ht]
  split
  all_goals simp_all [pyShowOpt, pyShow, pure, Except.pure]

/-- C3: a batch item whose kind discriminator is a string outside the
registry yields the failure payload `Unknown calculation type: \x7bkind\x7d` at its
position, and every item of the batch (in particular every subsequent one) is
still processed normally to its own entry. -/
theorem batch_unknown_kind (l : List CalcDict) (i : ℕ) (c : CalcDict) (s : String)
    (hc : l[i]? = some c) (ht : dictGet c "type" = some (PyVal.str s))
    (hs : s ∉ registeredKinds) :
    (batch_calculate l).results[i]? =
      some (BatchEntry.result c (Except.error ("Unknown calculation type: " ++ s))) ∧
    ∀ (j : ℕ) (d : CalcDict), l[j]? = some d →
      (batch_calculate l).results[j]? = some (processEntry d) := by
  constructor
  · rw [batch_results_getElem, hc]
    simp [processEntry, processItemTry_unknownKind c s ht hs]
  · intro j d hd
    rw [batch_results_getElem, hd]
    rfl

/-- A single-item batch with an unregistered kind, the example of the spec. -/
def unknownItem : CalcDict := [("type", PyVal.str "unknown")]

/-- C3, witness: the spec example `batch_calculate([\x7bkind: unknown\x7d])`. -/
theorem batch_unknown_kind_witness :
    dictGet unknownItem "type" = some (PyVal.str "unknown") ∧
    ("unknown" ∉ registeredKinds) ∧
    (batch_calculate [unknownItem]).results[0]? =
      some (BatchEntry.result unknownItem
        (Except.error "Unknown calculation type: unknown")) ∧
    (batch_calculate [unknownItem]).total_calculations = 1 ∧
    (batch_calculate [unknownItem]).successful = 0 :=
  ⟨rfl, by decide,
    (batch_unknown_kind [unknownItem] 0 unknownItem "unknown" rfl rfl (by decide)).1,
    rfl, rfl⟩

/-- C5: for previous ≠ 0, `calculate_yoy` returns
`absolute_change = current - previous` and a growth value that is
`(change / |previous|) * 100` rounded to two decimal places when
`as_percentage` is true, and the exact unrounded fraction
`change / |previous|` when it is false; `calculate_mom` behaves
identically. -/
theorem yoy_mom_growth (cur prev : ℚ) (h : prev ≠ 0) :
    (∃ p : YoyPayload, calculate_yoy cur prev true = Except.ok p ∧
        p.absolute_change = cur - prev ∧
        p.yoy_growth = pyRound ((cur - prev) / |prev| * 100) 2) ∧
    (∃ p : YoyPayload, calculate_yoy cur prev false = Except.ok p ∧
        p.absolute_change = cur - prev ∧ p.yoy_growth = (cur - prev) / |prev|) ∧
    (∃ p : MomPayload, calculate_mom cur prev true = Except.ok p ∧
        p.absolute_change = cur - prev ∧
        p.mom_growth = pyRound ((cur - prev) / |prev| * 100) 2) ∧
    (∃ p : MomPayload, calculate_mom cur prev false = Except.ok p ∧
        p.absolute_change = cur - prev ∧ p.mom_growth = (cur - prev) / |prev|) := by
  have h100 : (cur - prev) / |prev| * 100 / 100 = (cur - prev) / |prev| :=
    mul_div_cancel_right₀ _ (by norm_num)
  exact ⟨⟨_, by rw [calculate_yoy, if_neg h], rfl, rfl⟩,
    ⟨_, by rw [calculate_yoy, if_neg h], rfl, h100⟩,
    ⟨_, by rw [calculate_mom, if_neg h], rfl, rfl⟩,
    ⟨_, by rw [calculate_mom, if_neg h], rfl, h100⟩⟩

/-- C5, witness: the spec example `calculate_yoy(120, 100)`. -/
theorem yoy_mom_growth_witness :
    ((100 : ℚ) ≠ 0) ∧
    (∃ p : YoyPayload, calculate_yoy 120 100 true = Except.ok p ∧
        p.absolute_change = 120 - 100 ∧
        p.yoy_growth = pyRound ((120 - 100) / |(100 : ℚ)| * 100) 2) :=
  ⟨by decide, (yoy_mom_growth 120 100 (by decide)).1⟩

/-- Summing a list divided pointwise by a constant. -/
theorem sum_map_div (l : List ℚ) (t : ℚ) :
    (l.map (fun v => v / t)).sum = l.sum / t := by
  induction l with
  | nil => simp
  | cons x xs ih => simp [ih, add_div]

/-- C7: for a non-empty values list with nonzero sum, the unrounded
proportions computed by `calculate_proportion` sum to exactly 1, the
`normalize=true` second pass is idempotent (a further application returns the
same list), and the returned payload carries exactly those proportions,
rounded to 4 decimal places for display. -/
theorem proportion_sum_and_normalize (values : List ℚ)
    (h0 : values ≠ []) (hs : values.sum ≠ 0) :
    (proportionsOf values).sum = 1 ∧
    normalizePass (normalizePass (proportionsOf values)) =
      normalizePass (proportionsOf values) ∧
    ∃ p : PropPayload, calculate_proportion values false = Except.ok p ∧
      p.proportions = (proportionsOf values).map (fun q => pyRound q 4) := by
  have hsum : (proportionsOf values).sum = 1 := by
    rw [proportionsOf, sum_map_div, div_self hs]
  have hnorm : normalizePass (proportionsOf values) = proportionsOf values := by
    rw [normalizePass, hsum]
    simp
  refine ⟨hsum, by rw [hnorm, hnorm], ?_⟩
  simp only [calculate_proportion, if_neg h0, if_neg hs]
  exact ⟨_, rfl, rfl⟩

/-- C7, witness: the spec example `calculate_proportion([10, 20, 30, 40])`. -/
theorem proportion_sum_and_normalize_witness :
    (([10, 20, 30, 40] : List ℚ) ≠ []) ∧ (([10, 20, 30, 40] : List ℚ).sum ≠ 0) ∧
    (proportionsOf [10, 20, 30, 40]).sum = 1 :=
  ⟨by decide, by norm_num,
    (proportion_sum_and_normalize [10, 20, 30, 40] (by decide) (by norm_num)).1⟩

/-- C8, counterexample: the symbols the source maps multiply and divide to
are the mojibake strings U+0E23 U+0097 and U+0E23 U+0E17, not the
multiplication and division signs, and subtract maps to the ASCII hyphen,
not the minus sign. -/
theorem operator_symbol_cx :
    get_operator_symbol "multiply" = "ร\u0097" ∧ get_operator_symbol "multiply" ≠ "×" ∧
    get_operator_symbol "divide" = "รท" ∧ get_operator_symbol "divide" ≠ "÷" ∧
    get_operator_symbol "subtract" = "-" ∧ get_operator_symbol "subtract" ≠ "−" :=
  ⟨rfl, by decide, rfl, by decide, rfl, by decide⟩

/-- C8, amended: every success payload's formatted field renders as
`\x7ba\x7d \x7bsymbol\x7d \x7bb\x7d = \x7bresult\x7d` where the symbol is `+` for add, the ASCII
hyphen for subtract, and the mojibake strings U+0E23 U+0097 and U+0E23 U+0E17
(garbled multiplication and division signs) for multiply and divide; the
lookup never faults and falls back to the operation name itself for an
unmapped operation. -/
theorem operator_symbol_table (op : String) (a b : ℚ) :
    (get_operator_symbol "add" = "+" ∧ get_operator_symbol "subtract" = "-" ∧
      get_operator_symbol "multiply" = "ร\u0097" ∧ get_operator_symbol "divide" = "รท") ∧
    (op ∉ (["add", "subtract", "multiply", "divide"] : List String) →
      get_operator_symbol op = op) ∧
    (∀ p : ArithPayload, calculate op a b = Except.ok p →
      p.formatted = pyFloatStr p.a ++ " " ++ get_operator_symbol p.operation ++ " " ++
        pyFloatStr p.b ++ " = " ++ pyFloatStr p.result) := by
  refine ⟨⟨rfl, rfl, rfl, rfl⟩, ?_, ?_⟩
  · intro hop
    obtain ⟨h1, h2, h3, h4⟩ : ¬op = "add" ∧ ¬op = "subtract" ∧ ¬op = "multiply" ∧
        ¬op = "divide" := by
      simpa [not_or] using hop
    have b1 : (op == "add") = false := beq_eq_false_iff_ne.mpr h1
    have b2 : (op == "subtract") = false := beq_eq_false_iff_ne.mpr h2
    have b3 : (op == "multiply") = false := beq_eq_false_iff_ne.mpr h3
    have b4 : (op == "divide") = false := beq_eq_false_iff_ne.mpr h4
    simp [get_operator_symbol, symbols, List.lookup, b1, b2, b3, b4]
  · intro p hp
    rw [calculate] at hp
    repeat' split at hp
    all_goals first
      | (injection hp with h; subst h; rfl)
      | simp at hp

/-- C8, witness: the fallback at an unmapped operation and the formatted
string of a concrete addition. -/
theorem operator_symbol_table_witness :
    get_operator_symbol "foo" = "foo" ∧
    calculate "add" 2 3 = Except.ok ⟨"add", 2, 3, 5, "2.0 + 3.0 = 5.0"⟩ ∧
    ("2.0 + 3.0 = 5.0" : String) = pyFloatStr 2 ++ " " ++ get_operator_symbol "add" ++
      " " ++ pyFloatStr 3 ++ " = " ++ pyFloatStr 5 := by
  have h1 : calculate "add" 2 3 = Except.ok ⟨"add", 2, 3, 2 + 3,
      pyFloatStr 2 ++ " " ++ get_operator_symbol "add" ++ " " ++ pyFloatStr 3 ++ " = " ++
        pyFloatStr (2 + 3)⟩ := rfl
  have h2 : (2 : ℚ) + 3 = 5 := by norm_num
  rw [h2] at h1
  have hp : calculate "add" 2 3 = Except.ok ⟨"add", 2, 3, 5, "2.0 + 3.0 = 5.0"⟩ := by
    rw [h1]
    rfl
  exact ⟨(operator_symbol_table "foo" 0 0).2.1 (by decide), hp,
    (operator_symbol_table "add" 2 3).2.2 ⟨"add", 2, 3, 5, "2.0 + 3.0 = 5.0"⟩ hp⟩

/-- C9: for every `a`, `calculate` with operation `divide` and `b = 0`
returns the failure payload `Division by zero is not allowed`; the zero test
guards the division, so no quotient is ever produced for `b = 0`. -/
theorem divide_by_zero_checked (a : ℚ) :
    calculate "divide" a 0 = Except.error "Division by zero is not allowed" :=
  rfl

/-- C10: each batch item is processed independently of the rest of the batch
(the entry at position `i` is a function of the item at position `i` alone),
and an item of a registered kind whose required fields are present and
well-typed produces exactly the standalone handler's result for those
arguments, with default `as_percentage = true` and `normalize = false` when
the optional field is absent. -/
theorem batch_refines_handlers :
    (∀ (l : List CalcDict) (i : ℕ) (c : CalcDict), l[i]? = some c →
        (batch_calculate l).results[i]? = some (processEntry c)) ∧
    (∀ (c : CalcDict) (op : String) (a b : ℚ),
        dictGet c "type" = some (PyVal.str "arithmetic") →
        dictGet c "operation" = some (PyVal.str op) →
        dictGet c "a" = some (PyVal.num a) →
        dictGet c "b" = some (PyVal.num b) →
        processEntry c = BatchEntry.result c ((calculate op a b).map Payload.arith)) ∧
    (∀ (c : CalcDict) (cur prev : ℚ) (ap : Bool),
        dictGet c "type" = some (PyVal.str "yoy") →
        dictGet c "current_value" = some (PyVal.num cur) →
        dictGet c "previous_year_value" = some (PyVal.num prev) →
        (dictGet c "as_percentage" = some (PyVal.bool ap) ∨
          (dictGet c "as_percentage" = Option.none ∧ ap = true)) →
        processEntry c =
          BatchEntry.result c ((calculate_yoy cur prev ap).map Payload.yoy)) ∧
    (∀ (c : CalcDict) (cur prev : ℚ) (ap : Bool),
        dictGet c "type" = some (PyVal.str "mom") →
        dictGet c "current_value" = some (PyVal.num cur) →
        dictGet c "previous_month_value" = some (PyVal.num prev) →
        (dictGet c "as_percentage" = some (PyVal.bool ap) ∨
          (dictGet c "as_percentage" = Option.none ∧ ap = true)) →
        processEntry c =
          BatchEntry.result c ((calculate_mom cur prev ap).map Payload.mom)) ∧
    (∀ (c : CalcDict) (part whole : ℚ) (ap : Bool),
        dictGet c "type" = some (PyVal.str "percentage") →
        dictGet c "part" = some (PyVal.num part) →
        dictGet c "whole" = some (PyVal.num whole) →
        (dictGet c "as_percentage" = some (PyVal.bool ap) ∨
          (dictGet c "as_percentage" = Option.none ∧ ap = true)) →
        processEntry c =
          BatchEntry.result c ((calculate_percentage part whole ap).map Payload.pct)) ∧
    (∀ (c : CalcDict) (vs : List ℚ) (nm : Bool),
        dictGet c "type" = some (PyVal.str "proportion") →
        dictGet c "values" = some (PyVal.numList vs) →
        (dictGet c "normalize" = some (PyVal.bool nm) ∨
          (dictGet c "normalize" = Option.none ∧ nm = false)) →
        processEntry c =
          BatchEntry.result c ((calculate_proportion vs nm).map Payload.prop)) := by
  refine ⟨?_, ?_, ?_, ?_, ?_, ?_⟩
  · intro l i c hc
    rw [batch_results_getElem, hc]
    rfl
  · intro c op a b ht hop ha hb
    simp [processEntry, processItemTry, getItem, ht, hop, ha, hb, asStr, asNum,
        bind, Except.bind, Functor.map, Except.map, pure, Except.pure]
  · intro c cur prev ap ht hcur hprev hap
    rcases hap with hap | ⟨hap, rfl⟩ <;>
      simp [processEntry, processItemTry, getItem, ht, hcur, hprev, hap, asNum, pyTruthy,
        bind, Except.bind, Functor.map, Except.map, pure, Except.pure]
  · intro c cur prev ap ht hcur hprev hap
    rcases hap with hap | ⟨hap, rfl⟩ <;>
      simp [processEntry, processItemTry, getItem, ht, hcur, hprev, hap, asNum, pyTruthy,
        bind, Except.bind, Functor.map, Except.map, pure, Except.pure]
  · intro c part whole ap ht hpart hwhole hap
    rcases hap with hap | ⟨hap, rfl⟩ <;>
      simp [processEntry, processItemTry, getItem, ht, hpart, hwhole, hap, asNum, pyTruthy,
        bind, Except.bind, Functor.map, Except.map, pure, Except.pure]
  · intro c vs nm ht hvs hnm
    rcases hnm with hnm | ⟨hnm, rfl⟩ <;>
      simp [processEntry, processItemTry, getItem, ht, hvs, hnm, asNumList, pyTruthy,
        bind, Except.bind, Functor.map, Except.map, pure, Except.pure]

/-- The arithmetic item of the repository's batch test request. -/
def cArith : CalcDict :=
  [("type", PyVal.str "arithmetic"), ("operation", PyVal.str "multiply"),
   ("a", PyVal.num 5), ("b", PyVal.num 3)]

/-- The yoy item of the repository's batch test request (optional field
absent). -/
def cYoy : CalcDict :=
  [("type", PyVal.str "yoy"), ("current_value", PyVal.num 150),
   ("previous_year_value", PyVal.num 100)]

/-- A mom item with the optional field present. -/
def cMom : CalcDict :=
  [("type", PyVal.str "mom"), ("current_value", PyVal.num 110),
   ("previous_month_value", PyVal.num 100), ("as_percentage", PyVal.bool false)]

/-- The percentage item of the repository's batch test request. -/
def cPct : CalcDict :=
  [("type", PyVal.str "percentage"), ("part", PyVal.num 75), ("whole", PyVal.num 300)]

/-- A proportion item with the optional field present. -/
def cProp : CalcDict :=
  [("type", PyVal.str "proportion"), ("values", PyVal.numList [1, 2, 3, 4]),
   ("normalize", PyVal.bool true)]

/-- C10, witness: concrete items of each registered kind, including the
repository's own batch test request. -/
theorem batch_refines_handlers_witness :
    (batch_calculate [cArith, cYoy]).results[1]? = some (processEntry cYoy) ∧
    processEntry cArith =
      BatchEntry.result cArith ((calculate "multiply" 5 3).map Payload.arith) ∧
    processEntry cYoy =
      BatchEntry.result cYoy ((calculate_yoy 150 100 true).map Payload.yoy) ∧
    processEntry cMom =
      BatchEntry.result cMom ((calculate_mom 110 100 false).map Payload.mom) ∧
    processEntry cPct =
      BatchEntry.result cPct ((calculate_percentage 75 300 true).map Payload.pct) ∧
    processEntry cProp =
      BatchEntry.result cProp ((calculate_proportion [1, 2, 3, 4] true).map Payload.prop) :=
  ⟨batch_refines_handlers.1 [cArith, cYoy] 1 cYoy rfl,
   batch_refines_handlers.2.1 cArith "multiply" 5 3 rfl rfl rfl rfl,
   batch_refines_handlers.2.2.1 cYoy 150 100 true rfl rfl rfl (Or.inr ⟨rfl, rfl⟩),
   batch_refines_handlers.2.2.2.1 cMom 110 100 false rfl rfl rfl (Or.inl rfl),
   batch_refines_handlers.2.2.2.2.1 cPct 75 300 true rfl rfl rfl (Or.inr ⟨rfl, rfl⟩),
   batch_refines_handlers.2.2.2.2.2 cProp [1, 2, 3, 4] true rfl rfl (Or.inl rfl)⟩

end CalcMCP
